import Mathlib

/-!
Shallow embedding of the derived-series computation and time-cursor navigation
engine of the US-Yield-Curve dashboard (src/app.py, src/app2.py,
src/app_new.py).  Dates are modelled as integers, floating-point yields as
rationals, pandas NaN results as `none`, and the Streamlit session state and
per-rerun control flow as explicit arguments of pure step functions.
-/

namespace YieldCurve

/-- The four fixed tenors of the yield table (`maturities = ['2Y', '5Y', '10Y', '30Y']`). -/
inductive Tenor where
  | t2Y
  | t5Y
  | t10Y
  | t30Y
deriving DecidableEq, Repr, Fintype

/-- One row of the loaded, date-sorted table: a calendar date (an integer day
number) and the four yields. -/
structure Obs where
  date : Int
  y2 : Rat
  y5 : Rat
  y10 : Rat
  y30 : Rat
deriving DecidableEq, Repr

/-- Column access `row[m]` for a tenor `m`. -/
def Obs.value (o : Obs) : Tenor → Rat
  | .t2Y => o.y2
  | .t5Y => o.y5
  | .t10Y => o.y10
  | .t30Y => o.y30

/-- app.py line 214: `fly = df_filtered[fly1] + df_filtered[fly3] - 2 * df_filtered[fly2]`,
taken at one observation. -/
def flyApp (o : Obs) (t1 t2 t3 : Tenor) : Rat :=
  o.value t1 + o.value t3 - 2 * o.value t2

/-- app2.py line 136: `fly = df[r1] + df[r3] - 2 * df[r2]`, taken at one
observation of its (unfiltered) table. -/
def flyApp2 (o : Obs) (t1 t2 t3 : Tenor) : Rat :=
  o.value t1 + o.value t3 - 2 * o.value t2

/-- app_new.py line 164: `fly = 2 * df_filtered[r2] - df_filtered[r1] - df_filtered[r3]`,
taken at one observation. -/
def flyAppNew (o : Obs) (t1 t2 t3 : Tenor) : Rat :=
  2 * o.value t2 - o.value t1 - o.value t3

/-- app.py line 232 and app_new.py line 184: the defly/condor combination
`df[r4] - 3 * df[r3] + 3 * df[r2] - df[r1]`, taken at one observation. -/
def condorValue (o : Obs) (t1 t2 t3 t4 : Tenor) : Rat :=
  o.value t4 - 3 * o.value t3 + 3 * o.value t2 - o.value t1

/-- What a derived-series tab of the apps produces on one rerun: either a chart
built from computed data, or only the `st.warning(...)` message (no data, no
exception). -/
inductive TabOutcome (α : Type) where
  | chart (data : α)
  | warning
deriving DecidableEq, Repr

/-- The guard `len({fly1, fly2, fly3}) == 3` of app.py line 213 and
app_new.py line 163: the Python set of the three selected tenors has size 3. -/
def setSize3 (t1 t2 t3 : Tenor) : Bool :=
  [t1, t2, t3].dedup.length == 3

/-- The guard `len({d1, d2, d3, d4}) == 4` of app.py line 231 and
app_new.py line 183. -/
def setSize4 (t1 t2 t3 t4 : Tenor) : Bool :=
  [t1, t2, t3, t4].dedup.length == 4

/-- app.py lines 196-204: the Spreads tab computes `df_filtered[leg2] - df_filtered[leg1]`
when the two legs differ, and otherwise only shows a warning. -/
def spreadTabApp (l : List Obs) (leg1 leg2 : Tenor) : TabOutcome (List Rat) :=
  if leg1 ≠ leg2 then .chart (l.map (fun o => o.value leg2 - o.value leg1))
  else .warning

/-- app.py lines 213-221: the Flies tab computes the fly series when the three
tenors are pairwise distinct, and otherwise only shows a warning. -/
def flyTabApp (l : List Obs) (t1 t2 t3 : Tenor) : TabOutcome (List Rat) :=
  if setSize3 t1 t2 t3 then .chart (l.map (fun o => flyApp o t1 t2 t3))
  else .warning

/-- app_new.py lines 163-174: the Flies tab of the Bollinger variant, with its
own sign convention. -/
def flyTabAppNew (l : List Obs) (t1 t2 t3 : Tenor) : TabOutcome (List Rat) :=
  if setSize3 t1 t2 t3 then .chart (l.map (fun o => flyAppNew o t1 t2 t3))
  else .warning

/-- app_new.py lines 183-194: the Condors tab computes the condor series when
the four tenors are pairwise distinct, and otherwise only shows a warning. -/
def condorTabAppNew (l : List Obs) (t1 t2 t3 t4 : Tenor) : TabOutcome (List Rat) :=
  if setSize4 t1 t2 t3 t4 then .chart (l.map (fun o => condorValue o t1 t2 t3 t4))
  else .warning

/-- The set-size guard on three tenors holds exactly when the tenors are
pairwise distinct. -/
theorem setSize3_eq_true_iff (t1 t2 t3 : Tenor) :
    setSize3 t1 t2 t3 = true ↔ (t1 ≠ t2 ∧ t1 ≠ t3 ∧ t2 ≠ t3) := by
  revert t1 t2 t3; decide

/-- The set-size guard on four tenors holds exactly when the tenors are
pairwise distinct. -/
theorem setSize4_eq_true_iff (t1 t2 t3 t4 : Tenor) :
    setSize4 t1 t2 t3 t4 = true ↔
      (t1 ≠ t2 ∧ t1 ≠ t3 ∧ t1 ≠ t4 ∧ t2 ≠ t3 ∧ t2 ≠ t4 ∧ t3 ≠ t4) := by
  revert t1 t2 t3 t4; decide

/-- One Yields-and-Curve update cycle shared by app.py lines 75-96 and
app_new.py lines 90-110: start from the current cursor, let the Previous
button replace the proposal by `max(0, proposed_index - 1)`, then the Next
button by `min(len(df_filtered) - 1, proposed_index + 1)`, then let a chart
click override the proposal only when neither button was pressed this cycle
(the `prev_clicked` / `next_clicked` session flags are written by the button
handlers before the click check reads them, and reset afterwards). -/
def cursorStep (N cursor : Int) (prevP nextP : Bool) (clicked : Option Int) : Int :=
  let p1 := if prevP then max 0 (cursor - 1) else cursor
  let p2 := if nextP then min (N - 1) (p1 + 1) else p1
  match clicked with
  | some i => if !prevP && !nextP then i else p2
  | none => p2

/-- app.py lines 53-54: `date_index` is set to `len(df_filtered) - 1` when it is
absent from the session state or when the stored value is `>= len(df_filtered)`
(the reclamp after the filtered series shrinks). -/
def reclampApp (N : Int) (stored : Option Int) : Int :=
  match stored with
  | none => N - 1
  | some i => if i ≥ N then N - 1 else i

/-- app_new.py lines 87-88: `date_index` is set to `len(df_filtered) - 1` only
when it is absent from the session state; a stored value is kept unchanged,
with no reclamp against the current filtered length. -/
def initAppNew (N : Int) (stored : Option Int) : Int :=
  match stored with
  | none => N - 1
  | some i => i

/-- A full app.py main-tab cycle: initialization/reclamp of lines 53-54
followed by the button/click transition of lines 75-96. -/
def appCycle (N : Int) (stored : Option Int) (prevP nextP : Bool)
    (clicked : Option Int) : Int :=
  cursorStep N (reclampApp N stored) prevP nextP clicked

/-- A full app_new.py main-tab cycle: initialization of lines 87-88 followed by
the button/click transition of lines 90-110. -/
def appNewCycle (N : Int) (stored : Option Int) (prevP nextP : Bool)
    (clicked : Option Int) : Int :=
  cursorStep N (initAppNew N stored) prevP nextP clicked

/-- The loaded table has a minimum date, `df['Date'].min()` (app.py line 27). -/
def minDate (l : List Obs) : Option Int :=
  (l.map Obs.date).min?

/-- The loaded table has a maximum date, `df['Date'].max()` (app.py line 28). -/
def maxDate (l : List Obs) : Option Int :=
  (l.map Obs.date).max?

/-- app.py line 39 and app_new.py line 63: keep exactly the rows whose date
lies between the start and end dates inclusive, preserving order
(`df[(df['Date'].dt.date >= start_date) & (df['Date'].dt.date <= end_date)]`). -/
def dfFiltered (startDate endDate : Int) (l : List Obs) : List Obs :=
  l.filter (fun o => startDate ≤ o.date ∧ o.date ≤ endDate)

/-- The typed error conditions of the core contract. -/
inductive CoreError where
  | validationError
  | invalidRange
  | emptySeries
deriving DecidableEq, Repr

/-- app.py lines 34-39 and app_new.py lines 59-63: when the start date is after
the end date the script shows a blocking error and calls `st.stop()` before any
filtering, so nothing downstream runs; otherwise the filtered table is
produced.  The stop-with-error halt is modelled as a typed error value. -/
def appFilterStep (startDate endDate : Int) (l : List Obs) :
    Except CoreError (List Obs) :=
  if startDate > endDate then .error .invalidRange
  else .ok (dfFiltered startDate endDate l)

/-- Arithmetic mean of a list of rationals, `series.mean()` on a non-empty
series (callers represent the NaN mean of an empty series as `none`). -/
def meanQ (l : List Rat) : Rat :=
  l.sum / l.length

/-- Sample variance with the N-1 denominator, the square of pandas
`series.std()` (whose default is ddof=1). -/
def sampleVar (l : List Rat) : Rat :=
  ((l.map (fun x => (x - meanQ l) ^ 2)).sum) / ((l.length : Rat) - 1)

/-- pandas `series.std()`: the sample standard deviation, which is NaN
(modelled as `none`) when the series has fewer than two points. -/
noncomputable def stdQ (l : List Rat) : Option Real :=
  if 2 ≤ l.length then some (Real.sqrt (sampleVar l)) else none

/-- Round a rational to the nearest integer, ties to the even neighbour: the
tie rule of Python round applied to an exactly-represented value. -/
def roundHalfEven (q : Rat) : Int :=
  if q - ⌊q⌋ < 1 / 2 then ⌊q⌋
  else if (1 : Rat) / 2 < q - ⌊q⌋ then ⌊q⌋ + 1
  else if ⌊q⌋ % 2 = 0 then ⌊q⌋ else ⌊q⌋ + 1

/-- Python `round(x, 3)`: the value rounded to 3 decimal places. -/
def round3 (q : Rat) : Rat :=
  (roundHalfEven (1000 * q) : Rat) / 1000

/-- Round a real to the nearest integer, ties to the even neighbour. -/
noncomputable def roundHalfEvenR (x : Real) : Int :=
  if x - ⌊x⌋ < 1 / 2 then ⌊x⌋
  else if (1 : Real) / 2 < x - ⌊x⌋ then ⌊x⌋ + 1
  else if ⌊x⌋ % 2 = 0 then ⌊x⌋ else ⌊x⌋ + 1

/-- Python `round(x, 3)` on a real value. -/
noncomputable def round3R (x : Real) : Real :=
  (roundHalfEvenR (1000 * x) : Real) / 1000

/-- The record produced by `compute_stats` (app_new.py lines 19-26).  Fields
hold `none` where pandas produces NaN (every field on an empty series, and the
standard deviation of a single-point series). -/
structure StatsResult where
  mean : Option Rat
  stdDev : Option Real
  meanAbsDev : Option Rat
  minVal : Option Rat
  maxVal : Option Rat

/-- app_new.py lines 19-26: `compute_stats` returns the rounded mean, sample
standard deviation, mean absolute deviation `(series - series.mean()).abs().mean()`,
minimum and maximum of the series, each through Python `round(_, 3)`. -/
noncomputable def compute_stats (l : List Rat) : StatsResult :=
  { mean := if l.isEmpty then none else some (round3 (meanQ l))
    stdDev := (stdQ l).map round3R
    meanAbsDev :=
      if l.isEmpty then none
      else some (round3 (meanQ (l.map (fun x => |x - meanQ l|))))
    minVal := l.min?.map round3
    maxVal := l.max?.map round3 }

/-- The trailing window of length `w` ending at index `i`: the last `w` of the
first `i + 1` elements (pandas trailing-window rolling semantics). -/
def trailing (w : Nat) (l : List Rat) (i : Nat) : List Rat :=
  (l.take (i + 1)).drop (i + 1 - w)

/-- pandas `series.rolling(window=w).mean()` (app_new.py line 30): entry `i` is
NaN (`none`) until a full window of `w` observations is available, and from
then on the mean of the trailing `w` values. -/
def rollingMean (w : Nat) (l : List Rat) : List (Option Rat) :=
  (List.range l.length).map
    (fun i => if w ≤ i + 1 then some (meanQ (trailing w l i)) else none)

/-- pandas `series.rolling(window=w).std()` (app_new.py line 31): the sample
standard deviation of the trailing window, NaN until a full window is
available (and NaN for a window of a single point, by ddof=1). -/
noncomputable def rollingStd (w : Nat) (l : List Rat) : List (Option Real) :=
  (List.range l.length).map
    (fun i => if w ≤ i + 1 then stdQ (trailing w l i) else none)

/-- app_new.py line 32: `upper = ma + 2 * std`, elementwise with NaN
propagation, for a general multiplier `k`. -/
noncomputable def rollingUpper (w : Nat) (k : Real) (l : List Rat) :
    List (Option Real) :=
  (rollingMean w l).zipWith
    (fun m s =>
      match m, s with
      | some m, some s => some ((m : Real) + k * s)
      | _, _ => none)
    (rollingStd w l)

/-- app_new.py line 33: `lower = ma - 2 * std`, elementwise with NaN
propagation, for a general multiplier `k`. -/
noncomputable def rollingLower (w : Nat) (k : Real) (l : List Rat) :
    List (Option Real) :=
  (rollingMean w l).zipWith
    (fun m s =>
      match m, s with
      | some m, some s => some ((m : Real) - k * s)
      | _, _ => none)
    (rollingStd w l)

/-- plot_with_bollinger (app_new.py lines 29-43): the moving average and the
two bands drawn by the figure, at the fixed window 20 and multiplier 2 of the
source. -/
noncomputable def plotWithBollinger (l : List Rat) :
    List (Option Rat) × List (Option Real) × List (Option Real) :=
  (rollingMean 20 l, rollingUpper 20 2 l, rollingLower 20 2 l)

/-- A sample observation used in concrete checks: day 0 with yields
2Y = 1, 5Y = 2, 10Y = 4, 30Y = 5. -/
def sampleObs : Obs :=
  { date := 0, y2 := 1, y5 := 2, y10 := 4, y30 := 5 }

/-- A second sample observation, day 1 with yields 2Y = 3, 5Y = 1, 10Y = 2,
30Y = 6. -/
def sampleObs1 : Obs :=
  { date := 1, y2 := 3, y5 := 1, y10 := 2, y30 := 6 }

/-- C1 is false as stated: at the sample observation and the distinct triple
(2Y, 5Y, 10Y) with 5Y the center, the app.py fly is 1 + 4 - 2·2 = 1 while the
app_new.py fly is 2·2 - 1 - 4 = -1. -/
theorem C1_fly_sign_counterexample :
    flyApp sampleObs .t2Y .t5Y .t10Y ≠ flyAppNew sampleObs .t2Y .t5Y .t10Y := by
  simp only [flyApp, flyAppNew, sampleObs, Obs.value]
  norm_num

/-- C1 (amended): app.py and app2.py share the sign convention r1 + r3 - 2·r2
and agree at every observation and tenor triple, while app_new.py applies the
opposite convention 2·r2 - r1 - r3, the pointwise negation of the other two. -/
theorem C1_fly_conventions (o : Obs) (t1 t2 t3 : Tenor) :
    flyApp o t1 t2 t3 = flyApp2 o t1 t2 t3 ∧
    flyAppNew o t1 t2 t3 = -flyApp o t1 t2 t3 := by
  refine ⟨rfl, ?_⟩
  simp only [flyApp, flyAppNew]
  ring

/-- C2 is false as stated: the duplicate-tenor fly request (2Y, 2Y, 5Y) on a
one-row table does not fail with a typed validation error; the tab silently
produces no series, returning only the warning outcome. -/
theorem C2_duplicate_warns_counterexample :
    flyTabAppNew [sampleObs] .t2Y .t2Y .t5Y = TabOutcome.warning := by
  rfl

/-- C2 (amended): a duplicate tenor in a spread, fly, or condor request makes
the tab skip the computation and return only a warning: no chart data is
produced, and no typed error is raised (the codomain of the tab functions has
no error case at all). -/
theorem C2_duplicate_tenors_warn (l : List Obs) (s t1 t2 t3 u1 u2 u3 u4 : Tenor)
    (hfly : t1 = t2 ∨ t1 = t3 ∨ t2 = t3)
    (hcondor : u1 = u2 ∨ u1 = u3 ∨ u1 = u4 ∨ u2 = u3 ∨ u2 = u4 ∨ u3 = u4) :
    spreadTabApp l s s = .warning ∧
    flyTabApp l t1 t2 t3 = .warning ∧
    flyTabAppNew l t1 t2 t3 = .warning ∧
    condorTabAppNew l u1 u2 u3 u4 = .warning := by
  have h3 : ¬ setSize3 t1 t2 t3 = true := by
    rw [setSize3_eq_true_iff]; tauto
  have h4 : ¬ setSize4 u1 u2 u3 u4 = true := by
    rw [setSize4_eq_true_iff]; tauto
  refine ⟨?_, ?_, ?_, ?_⟩ <;>
    simp [spreadTabApp, flyTabApp, flyTabAppNew, condorTabAppNew, h3, h4]

/-- Witness for the amended C2 at concrete duplicate requests. -/
theorem C2_duplicate_tenors_warn_witness :
    spreadTabApp [sampleObs] .t2Y .t2Y = .warning ∧
    flyTabApp [sampleObs] .t2Y .t2Y .t5Y = .warning ∧
    flyTabAppNew [sampleObs] .t2Y .t2Y .t5Y = .warning ∧
    condorTabAppNew [sampleObs] .t2Y .t2Y .t5Y .t10Y = .warning :=
  C2_duplicate_tenors_warn [sampleObs] .t2Y .t2Y .t2Y .t5Y .t2Y .t2Y .t5Y .t10Y
    (Or.inl rfl) (Or.inl rfl)

/-- C3: app_new.py violates the cursor invariant.  With the filtered series
shrunk to length 3 while the stored cursor is 5, a cycle with no button or
click events returns 5, outside [0, 2] (the subsequent
`df_filtered.iloc[proposed_index]` of line 112 then fails); the reclamp of
app.py lines 53-54 would instead reset the cursor to 2 first. -/
theorem C3_appNew_cursor_out_of_range :
    appNewCycle 3 (some 5) false false none = 5 ∧
    ¬ appNewCycle 3 (some 5) false false none ≤ 3 - 1 ∧
    appCycle 3 (some 5) false false none = 3 - 1 := by
  decide

/-- C4: in one update cycle a button press takes precedence over a
simultaneous chart click: with Previous pressed the cursor becomes
max(0, cursor - 1) whatever was clicked, with Next pressed it becomes
min(N - 1, cursor + 1) whatever was clicked, and a clicked point index is
adopted exactly when no button was pressed that cycle. -/
theorem C4_button_precedence (N cursor : Int) (clicked : Option Int) (i : Int) :
    cursorStep N cursor true false clicked = max 0 (cursor - 1) ∧
    cursorStep N cursor false true clicked = min (N - 1) (cursor + 1) ∧
    cursorStep N cursor false false (some i) = i := by
  cases clicked <;> simp [cursorStep]

/-- C8: the date range filter keeps exactly the in-range observations in their
original order (a sublist of the source), and filtering a series to its own
full date range returns it unchanged. -/
theorem C8_filter_range (l : List Obs) (startDate endDate d1 d2 : Int)
    (hmin : minDate l = some d1) (hmax : maxDate l = some d2) :
    dfFiltered d1 d2 l = l ∧
    (∀ o : Obs, o ∈ dfFiltered startDate endDate l ↔
      o ∈ l ∧ startDate ≤ o.date ∧ o.date ≤ endDate) ∧
    (dfFiltered startDate endDate l).Sublist l := by
  have hmin' : (l.map Obs.date).min? = some d1 := hmin
  have hmax' : (l.map Obs.date).max? = some d2 := hmax
  refine ⟨?_, ?_, List.filter_sublist l⟩
  · rw [dfFiltered, List.filter_eq_self]
    intro o ho
    have h1 : d1 ≤ o.date :=
      (List.le_min?_iff (fun _ _ _ => le_min_iff) hmin').mp (le_refl d1)
        o.date (List.mem_map_of_mem Obs.date ho)
    have h2 : o.date ≤ d2 :=
      (List.max?_le_iff (fun _ _ _ => max_le_iff) hmax').mp (le_refl d2)
        o.date (List.mem_map_of_mem Obs.date ho)
    simp [h1, h2]
  · intro o
    simp [dfFiltered, List.mem_filter]

/-- Witness for C8 on a concrete two-row table with dates 0 and 1. -/
theorem C8_filter_range_witness :
    minDate [sampleObs, sampleObs1] = some 0 ∧
    maxDate [sampleObs, sampleObs1] = some 1 ∧
    (dfFiltered 0 1 [sampleObs, sampleObs1] = [sampleObs, sampleObs1] ∧
     (∀ o : Obs, o ∈ dfFiltered 0 1 [sampleObs, sampleObs1] ↔
       o ∈ [sampleObs, sampleObs1] ∧ 0 ≤ o.date ∧ o.date ≤ 1) ∧
     (dfFiltered 0 1 [sampleObs, sampleObs1]).Sublist [sampleObs, sampleObs1]) :=
  ⟨by decide, by decide,
   C8_filter_range [sampleObs, sampleObs1] 0 1 0 1 (by decide) (by decide)⟩

/-- C9: a date range request with start strictly after end halts the pipeline
with the typed invalid-range error and yields no filtered output at all. -/
theorem C9_invalid_range_halts (startDate endDate : Int) (l : List Obs)
    (h : startDate > endDate) :
    appFilterStep startDate endDate l = .error CoreError.invalidRange ∧
    ∀ out : List Obs, appFilterStep startDate endDate l ≠ .ok out := by
  refine ⟨?_, ?_⟩ <;> simp [appFilterStep, h]

/-- Witness for C9 at the concrete reversed range (1, 0). -/
theorem C9_invalid_range_halts_witness :
    ((1 : Int) > 0) ∧
    (appFilterStep 1 0 [sampleObs] = .error CoreError.invalidRange ∧
     ∀ out : List Obs, appFilterStep 1 0 [sampleObs] ≠ .ok out) :=
  ⟨by decide, C9_invalid_range_halts 1 0 [sampleObs] (by decide)⟩

/-- On a non-empty list of rationals the pandas minimum exists, is an element,
and bounds the list from below. -/
theorem min?_spec (l : List Rat) (h : l ≠ []) :
    ∃ m, l.min? = some m ∧ m ∈ l ∧ ∀ x ∈ l, m ≤ x := by
  cases l with
  | nil => exact absurd rfl h
  | cons a t =>
    have hfold : (a :: t).min? = some (t.foldl min a) := rfl
    refine ⟨t.foldl min a, rfl, ?_, ?_⟩
    · exact List.min?_mem (fun x y => min_choice x y) hfold
    · exact fun x hx =>
        (List.le_min?_iff (fun _ _ _ => le_min_iff) hfold).mp
          (le_refl _) x hx

/-- On a non-empty list of rationals the pandas maximum exists, is an element,
and bounds the list from above. -/
theorem max?_spec (l : List Rat) (h : l ≠ []) :
    ∃ m, l.max? = some m ∧ m ∈ l ∧ ∀ x ∈ l, x ≤ m := by
  cases l with
  | nil => exact absurd rfl h
  | cons a t =>
    have hfold : (a :: t).max? = some (t.foldl max a) := rfl
    refine ⟨t.foldl max a, rfl, ?_, ?_⟩
    · exact List.max?_mem (fun x y => max_choice x y) hfold
    · exact fun x hx =>
        (List.max?_le_iff (fun _ _ _ => max_le_iff) hfold).mp
          (le_refl _) x hx

/-- C5: on a non-empty series compute_stats realizes the summary-statistics
contract: the rounded arithmetic mean, the rounded sample standard deviation
with the N-1 denominator (absent exactly on a single-point series, where that
quantity is undefined and pandas yields NaN), the rounded mean of the absolute
deviations from the mean, and the rounded least and greatest elements — every
output passing through round-to-3-decimal-places. -/
theorem C5_compute_stats_contract (l : List Rat) (h : l ≠ []) :
    (compute_stats l).mean = some (round3 (l.sum / l.length)) ∧
    (2 ≤ l.length →
      (compute_stats l).stdDev = some (round3R (Real.sqrt
        (((l.map (fun x => (x - l.sum / l.length) ^ 2)).sum /
          ((l.length : Rat) - 1) : Rat))))) ∧
    (l.length = 1 → (compute_stats l).stdDev = none) ∧
    (compute_stats l).meanAbsDev =
      some (round3 ((l.map (fun x => |x - l.sum / l.length|)).sum / l.length)) ∧
    (∃ m ∈ l, (∀ x ∈ l, m ≤ x) ∧ (compute_stats l).minVal = some (round3 m)) ∧
    (∃ m ∈ l, (∀ x ∈ l, x ≤ m) ∧ (compute_stats l).maxVal = some (round3 m)) := by
  have hne : l.isEmpty = false := by simpa using h
  refine ⟨?_, ?_, ?_, ?_, ?_, ?_⟩
  · simp [compute_stats, hne, meanQ]
  · intro h2
    simp [compute_stats, stdQ, h2, sampleVar, meanQ]
  · intro h1
    simp [compute_stats, stdQ, h1]
  · simp [compute_stats, hne, meanQ]
  · obtain ⟨m, hm, hmem, hle⟩ := min?_spec l h
    exact ⟨m, hmem, hle, by simp [compute_stats, hm]⟩
  · obtain ⟨m, hm, hmem, hle⟩ := max?_spec l h
    exact ⟨m, hmem, hle, by simp [compute_stats, hm]⟩

/-- Witness for C5 on the concrete series [1, 2]: the rounded mean evaluates
to 3/2 and both bounds are elements of the series. -/
theorem C5_compute_stats_contract_witness :
    (([1, 2] : List Rat) ≠ []) ∧
    (compute_stats [1, 2]).mean = some (3 / 2) := by
  have h := C5_compute_stats_contract [1, 2] (by simp)
  refine ⟨by simp, ?_⟩
  have hm := h.1
  norm_num [round3, roundHalfEven] at hm
  exact hm

/-- C6 is false as stated: compute_stats on the empty series does not fail
with a typed error; pandas returns NaN everywhere and the call yields the
all-placeholder record. -/
theorem C6_empty_stats_counterexample :
    (compute_stats []).mean = none ∧ (compute_stats []).stdDev = none ∧
    (compute_stats []).meanAbsDev = none ∧ (compute_stats []).minVal = none ∧
    (compute_stats []).maxVal = none :=
  ⟨rfl, rfl, rfl, rfl, rfl⟩

/-- C6 (amended): compute_stats never raises; on the empty series every field
is the NaN placeholder, while on any non-empty series the mean, mean absolute
deviation, minimum and maximum are all present. -/
theorem C6_empty_stats_placeholder (l : List Rat) (h : l ≠ []) :
    ((compute_stats []).mean = none ∧ (compute_stats []).stdDev = none ∧
     (compute_stats []).meanAbsDev = none ∧ (compute_stats []).minVal = none ∧
     (compute_stats []).maxVal = none) ∧
    (compute_stats l).mean.isSome = true ∧
    (compute_stats l).meanAbsDev.isSome = true ∧
    (compute_stats l).minVal.isSome = true ∧
    (compute_stats l).maxVal.isSome = true := by
  have hne : l.isEmpty = false := by simpa using h
  obtain ⟨m1, hm1, -, -⟩ := min?_spec l h
  obtain ⟨m2, hm2, -, -⟩ := max?_spec l h
  exact ⟨⟨rfl, rfl, rfl, rfl, rfl⟩,
    by simp [compute_stats, hne], by simp [compute_stats, hne],
    by simp [compute_stats, hm1], by simp [compute_stats, hm2]⟩

/-- Witness for the amended C6 on the concrete series [1]. -/
theorem C6_empty_stats_placeholder_witness :
    (([1] : List Rat) ≠ []) ∧
    (compute_stats ([1] : List Rat)).mean.isSome = true :=
  ⟨by simp, (C6_empty_stats_placeholder [1] (by simp)).2.1⟩

/-- Entry `i` of the rolling mean, for an in-range index. -/
theorem rollingMean_getElem? (w : Nat) (l : List Rat) (i : Nat)
    (hi : i < l.length) :
    (rollingMean w l)[i]? =
      some (if w ≤ i + 1 then some (meanQ (trailing w l i)) else none) := by
  rw [rollingMean, List.getElem?_map, List.getElem?_range hi]
  rfl

/-- Entry `i` of the rolling standard deviation, for an in-range index. -/
theorem rollingStd_getElem? (w : Nat) (l : List Rat) (i : Nat)
    (hi : i < l.length) :
    (rollingStd w l)[i]? =
      some (if w ≤ i + 1 then stdQ (trailing w l i) else none) := by
  rw [rollingStd, List.getElem?_map, List.getElem?_range hi]
  rfl

/-- Entry `i` of the upper band, for an in-range index. -/
theorem rollingUpper_getElem? (w : Nat) (k : Real) (l : List Rat) (i : Nat)
    (hi : i < l.length) :
    (rollingUpper w k l)[i]? =
      some (if w ≤ i + 1 then
        (stdQ (trailing w l i)).map
          (fun s => (meanQ (trailing w l i) : Real) + k * s)
      else none) := by
  rw [rollingUpper, List.getElem?_zipWith, rollingMean_getElem? w l i hi,
    rollingStd_getElem? w l i hi]
  by_cases hw : w ≤ i + 1
  · cases hstd : stdQ (trailing w l i) <;> simp [hw, hstd]
  · simp [hw]

/-- Entry `i` of the lower band, for an in-range index. -/
theorem rollingLower_getElem? (w : Nat) (k : Real) (l : List Rat) (i : Nat)
    (hi : i < l.length) :
    (rollingLower w k l)[i]? =
      some (if w ≤ i + 1 then
        (stdQ (trailing w l i)).map
          (fun s => (meanQ (trailing w l i) : Real) - k * s)
      else none) := by
  rw [rollingLower, List.getElem?_zipWith, rollingMean_getElem? w l i hi,
    rollingStd_getElem? w l i hi]
  by_cases hw : w ≤ i + 1
  · cases hstd : stdQ (trailing w l i) <;> simp [hw, hstd]
  · simp [hw]

/-- The trailing window reads exactly positions i+1-w .. i of the series. -/
theorem trailing_eq_drop_take (w : Nat) (l : List Rat) (i : Nat)
    (hw : w ≤ i + 1) :
    trailing w l i = (l.drop (i + 1 - w)).take w := by
  rw [trailing, List.drop_take]
  congr 1
  omega

/-- For an in-range index with a full window available, the trailing window
holds exactly `w` values. -/
theorem trailing_length (w : Nat) (l : List Rat) (i : Nat)
    (hi : i < l.length) (hw : w ≤ i + 1) :
    (trailing w l i).length = w := by
  simp only [trailing, List.length_drop, List.length_take]
  omega

/-- C7: the Bollinger computation is a pure trailing-window transform.  Before
a full window is available the moving average and both bands are absent
(`none`, never zero or a placeholder).  From index w-1 on, the moving average
is the mean of the trailing w values, and each band is that mean plus
respectively minus k times the sample standard deviation of the same trailing
w values (which is what the NaN-propagating `ma ± k·std` computes); the window
is exactly the w values at positions i+1-w .. i, so no forward-looking value
is used. -/
theorem C7_rolling_bands (w : Nat) (k : Real) (l : List Rat) (i : Nat)
    (hi : i < l.length) :
    (i + 1 < w →
      (rollingMean w l)[i]? = some none ∧
      (rollingUpper w k l)[i]? = some none ∧
      (rollingLower w k l)[i]? = some none) ∧
    (w ≤ i + 1 →
      trailing w l i = (l.drop (i + 1 - w)).take w ∧
      (trailing w l i).length = w ∧
      (rollingMean w l)[i]? = some (some (meanQ (trailing w l i))) ∧
      (rollingUpper w k l)[i]? =
        some ((stdQ (trailing w l i)).map
          (fun s => (meanQ (trailing w l i) : Real) + k * s)) ∧
      (rollingLower w k l)[i]? =
        some ((stdQ (trailing w l i)).map
          (fun s => (meanQ (trailing w l i) : Real) - k * s))) := by
  constructor
  · intro hlt
    have hw : ¬ w ≤ i + 1 := by omega
    rw [rollingMean_getElem? w l i hi, rollingUpper_getElem? w k l i hi,
      rollingLower_getElem? w k l i hi]
    simp [hw]
  · intro hw
    refine ⟨trailing_eq_drop_take w l i hw, trailing_length w l i hi hw, ?_, ?_, ?_⟩
    · rw [rollingMean_getElem? w l i hi]; simp [hw]
    · rw [rollingUpper_getElem? w k l i hi]; simp [hw]
    · rw [rollingLower_getElem? w k l i hi]; simp [hw]

/-- Witness for C7 on the series [0, 0] with window 2 at index 1, where the
window is full and the moving average is present. -/
theorem C7_rolling_bands_witness :
    (1 < ([0, 0] : List Rat).length) ∧
    (rollingMean 2 [0, 0])[1]? = some (some (meanQ (trailing 2 [0, 0] 1))) :=
  ⟨by norm_num,
    ((C7_rolling_bands 2 2 [0, 0] 1 (by norm_num)).2 (by norm_num)).2.2.1⟩

/-- C10: wherever the bands are defined (a full window of at least two points,
so the sample standard deviation exists), the upper and lower band exist, sum
to twice the moving average, and bracket it, since the band width k·std is
non-negative. -/
theorem C10_bands_symmetric_ordered (w : Nat) (k : Real) (l : List Rat)
    (i : Nat) (hk : 0 ≤ k) (hi : i < l.length) (hw : w ≤ i + 1) (h2 : 2 ≤ w) :
    ∃ u lo : Real,
      (rollingUpper w k l)[i]? = some (some u) ∧
      (rollingLower w k l)[i]? = some (some lo) ∧
      u + lo = 2 * (meanQ (trailing w l i) : Real) ∧
      lo ≤ (meanQ (trailing w l i) : Real) ∧
      (meanQ (trailing w l i) : Real) ≤ u := by
  have hlen : 2 ≤ (trailing w l i).length := by
    rw [trailing_length w l i hi hw]; exact h2
  have hstd : stdQ (trailing w l i) =
      some (Real.sqrt (sampleVar (trailing w l i))) := by
    rw [stdQ, if_pos hlen]
  have hnn : 0 ≤ k * Real.sqrt (sampleVar (trailing w l i)) :=
    mul_nonneg hk (Real.sqrt_nonneg _)
  refine ⟨(meanQ (trailing w l i) : Real) + k * Real.sqrt (sampleVar (trailing w l i)),
    (meanQ (trailing w l i) : Real) - k * Real.sqrt (sampleVar (trailing w l i)),
    ?_, ?_, by ring, ?_, ?_⟩
  · rw [rollingUpper_getElem? w k l i hi]; simp [hw, hstd]
  · rw [rollingLower_getElem? w k l i hi]; simp [hw, hstd]
  · linarith
  · linarith

/-- Witness for C10 on the series [0, 0] with window 2 and multiplier 2 at
index 1. -/
theorem C10_bands_symmetric_ordered_witness :
    ((0 : Real) ≤ 2) ∧ (1 < ([0, 0] : List Rat).length) ∧ (2 ≤ 1 + 1) ∧
    (∃ u lo : Real,
      (rollingUpper 2 2 [0, 0])[1]? = some (some u) ∧
      (rollingLower 2 2 [0, 0])[1]? = some (some lo) ∧
      u + lo = 2 * (meanQ (trailing 2 [0, 0] 1) : Real) ∧
      lo ≤ (meanQ (trailing 2 [0, 0] 1) : Real) ∧
      (meanQ (trailing 2 [0, 0] 1) : Real) ≤ u) :=
  ⟨by norm_num, by norm_num, by norm_num,
    C10_bands_symmetric_ordered 2 2 [0, 0] 1 (by norm_num) (by norm_num)
      (by norm_num) (by norm_num)⟩

end YieldCurve
